import Mathlib

/-!
Verification of the kubernetes-resource deployment CLI (src/cli/main.py).

The program shells out to `kubectl`; we model the backend as an environment
`Env` giving, for each command line (a list of argument strings), the exit
code the backend would return, plus a file-existence predicate for manifest
paths.  Every orchestrator function is embedded as a pure function that
returns the ordered trace of backend command lines it issues together with
its outcome (a `typer.Exit` code, normal completion, or an uncaught
exception).
-/

namespace CliMain

/-- Mirrors class `K8sStack` of src/cli/main.py. -/
structure K8sStack where
  stack_code : String
  stack_description : String
  files : List String
deriving DecidableEq

/-- The `"monitoring"` entry of `SUPPORT_STACKS`. -/
def monitoringStack : K8sStack :=
  ⟨ "monitoring", "Prometheus 与 Grafana 监控栈",
    [ "namespace.yaml",
      "prometheus-rbac.yaml",
      "prometheus-config.yaml",
      "prometheus-deployment.yaml",
      "prometheus-service.yaml",
      "grafana-deployment.yaml",
      "grafana-service.yaml",
      "monitoring-ingress.yaml" ] ⟩

/-- The `"elk"` entry of `SUPPORT_STACKS` (its manifest list is empty). -/
def elkStack : K8sStack := ⟨ "elk", "ELK 日志收集栈", [] ⟩

/-- The `"hadoop"` entry of `SUPPORT_STACKS` (its manifest list is empty). -/
def hadoopStack : K8sStack := ⟨ "hadoop", "Hadoop 大数据处理栈", [] ⟩

/-- Mirrors the dict `SUPPORT_STACKS` of src/cli/main.py, as an association list. -/
def SUPPORT_STACKS : List (String × K8sStack) :=
  [ ( "monitoring", monitoringStack), ( "elk", elkStack), ( "hadoop", hadoopStack) ]

/-- The command line issued by `ensure_kubectl` for the client-version preflight check. -/
def kubectlVersionCmd : List String := [ "kubectl", "version", "--client" ]

/-- The command line issued by `ensure_kubectl` for the current-context preflight check. -/
def kubectlContextCmd : List String := [ "kubectl", "config", "current-context" ]

/-- The command line built by `apply_yaml`: `kubectl apply -f <path>` plus
`--dry-run=server` when `dry_run` is set. -/
def applyCmd (file_path : String) (dry_run : Bool) : List String :=
  [ "kubectl", "apply", "-f", file_path ] ++
    (if dry_run then [ "--dry-run=server" ] else [])

/-- The command line built by `kubectl_wait`. -/
def waitCmd (label namespc timeout : String) : List String :=
  [ "kubectl", "wait", "--for=condition=ready", "pod", "-l", label, "-n", namespc,
    "--timeout=" ++ timeout ]

/-- The namespace-existence query issued by `delete_stack`. -/
def getNamespacesCmd (stack : String) : List String :=
  [ "kubectl", "get", "namespaces", stack ]

/-- The namespace deletion issued by `delete_stack`. -/
def deleteNamespacesCmd (namespc : String) : List String :=
  [ "kubectl", "delete", "namespaces", namespc ]

/-- The backend environment: which manifest files exist locally, and the exit
code the backend returns for each command line. -/
structure Env where
  fileExists : String → Bool
  cmdExit : List String → Nat

/-- Exceptions the program can raise: `subprocess.CalledProcessError` (command
line and return code) and `FileNotFoundError` (path). -/
inductive Err where
  | calledProcessError : List String → Nat → Err
  | fileNotFound : String → Err
deriving DecidableEq

/-- How one CLI invocation ends: a `typer.Exit`-style exit code (0 for normal
completion), or an uncaught exception propagating out. -/
inductive Outcome where
  | exit : Nat → Outcome
  | raised : Err → Outcome
deriving DecidableEq

/-- Mirrors `run_cmd` (renamed `runCmd` here): runs the command (recording it in the trace); with
`check` set, a non-zero exit raises `CalledProcessError`; otherwise the exit
code is returned. -/
def runCmd (env : Env) (cmd : List String) (check : Bool) :
    List (List String) × Except Err Nat :=
  ( [cmd],
    if check ∧ env.cmdExit cmd ≠ 0 then
      Except.error (Err.calledProcessError cmd (env.cmdExit cmd))
    else
      Except.ok (env.cmdExit cmd))

/-- Mirrors `ensure_kubectl`: the client-version check, then the
current-context check, each with `check=True`; the first failure re-raises. -/
def ensure_kubectl (env : Env) : List (List String) × Except Err Unit :=
  match runCmd env kubectlVersionCmd true with
  | (t1, Except.error e) => (t1, Except.error e)
  | (t1, Except.ok _) =>
    match runCmd env kubectlContextCmd true with
    | (t2, Except.error e) => (t1 ++ t2, Except.error e)
    | (t2, Except.ok _) => (t1 ++ t2, Except.ok ())

/-- Mirrors `apply_yaml`: a missing file raises `FileNotFoundError` before any
backend call; otherwise `kubectl apply` runs with `check=True`. -/
def apply_yaml (env : Env) (file_path : String) (dry_run : Bool) :
    List (List String) × Except Err Unit :=
  if env.fileExists file_path then
    match runCmd env (applyCmd file_path dry_run) true with
    | (t, Except.error e) => (t, Except.error e)
    | (t, Except.ok _) => (t, Except.ok ())
  else
    ([], Except.error (Err.fileNotFound file_path))

/-- Mirrors `kubectl_wait`: one checked backend call. -/
def kubectl_wait (env : Env) (label namespc timeout : String) :
    List (List String) × Except Err Unit :=
  match runCmd env (waitCmd label namespc timeout) true with
  | (t, Except.error e) => (t, Except.error e)
  | (t, Except.ok _) => (t, Except.ok ())

/-- Mirrors `resource_dir_for`: the packaged resource directory for a stack
(`cli/resource/<stack>`). -/
def resource_dir_for (stack : String) : String :=
  "cli/resource/" ++ stack

/-- The path separator used when joining the resource directory with a
manifest file name (`monitor_dir / name`). -/
def resourceSep : String := "/"

/-- The path separator character. -/
def pathSepChar : Char := '/'

/-- Characters of the final path component: scan the characters, resetting the
(reversed) current component at each separator. -/
def baseNameAux (cur : List Char) : List Char → List Char
  | [] => cur.reverse
  | c :: rest => if c = pathSepChar then baseNameAux [] rest else baseNameAux (c :: cur) rest

/-- `Path.name`: the final path component, as used in the progress and error
messages (`fp.name`). -/
def baseName (p : String) : String :=
  String.mk (baseNameAux [] p.data)

/-- Python `repr` of a list of strings, as it appears inside
`str(CalledProcessError)`. -/
def pyListRepr (cmd : List String) : String :=
  "[" ++ String.intercalate ", " (cmd.map (fun s => "\x27" ++ s ++ "\x27")) ++ "]"

/-- `str(e)` for the exceptions we model: `CalledProcessError` renders as
Python prints it; `FileNotFoundError(file_path)` renders as the path. -/
def errStr : Err → String
  | Err.calledProcessError cmd rc =>
      "Command \x27" ++ pyListRepr cmd ++ "\x27 " ++
        ( "returned non-zero exit status " ++ toString rc) ++ "."
  | Err.fileNotFound p => p

/-- The message `tqdm.write(f"失败: {fp.name} -> {e}")` surfaced by `deploy`
when applying a manifest fails. -/
def failMsg (fp : String) (e : Err) : String :=
  "失败: " ++ (baseName fp ++ (" -> " ++ errStr e))

/-- Result of the manifest-application loop in `deploy`: either every file was
applied, or the loop stopped at the first failure with the surfaced message. -/
inductive LoopRes where
  | ok : LoopRes
  | failed : String → LoopRes
deriving DecidableEq

/-- The `for fp in files` loop of `deploy`: applies each manifest in order;
on the first exception the failure message is surfaced and the loop aborts
(the exception handler raises `typer.Exit(code=1)`). -/
def applyLoop (env : Env) (dry_run : Bool) : List String → List (List String) × LoopRes
  | [] => ([], LoopRes.ok)
  | fp :: rest =>
    match apply_yaml env fp dry_run with
    | (t, Except.error e) => (t, LoopRes.failed (failMsg fp e))
    | (t, Except.ok _) =>
      match applyLoop env dry_run rest with
      | (t2, r) => (t ++ t2, r)

/-- The full paths `monitor_dir / name` for the monitoring stack's manifests. -/
def monitoringPaths : List String :=
  monitoringStack.files.map (fun name => resource_dir_for "monitoring" ++ resourceSep ++ name)

/-- The default of the `--timeout` option of `deploy`. -/
def deployTimeoutDefault : String := "300s"

/-- Result of one CLI invocation: the ordered backend-command trace, the
outcome, the logging level configured from `--verbose`, and the surfaced
failure/warning message if any (the `tqdm.write` in `deploy`'s exception
handler, resp. the `logger.warning` in `delete_stack`). -/
structure RunRes where
  trace : List (List String)
  outcome : Outcome
  logLevel : String
  surfaced : Option String
deriving DecidableEq

/-- Body of `deploy` after the preflight: stack dispatch, the apply loop, and
(unless dry-run) the two ordered readiness waits. -/
def deployBody (env : Env) (stack : String) (dry_run : Bool) (timeout : String) :
    List (List String) × Outcome × Option String :=
  if stack = "monitoring" then
    match applyLoop env dry_run monitoringPaths with
    | (t, LoopRes.failed msg) => (t, Outcome.exit 1, some msg)
    | (t, LoopRes.ok) =>
      if dry_run then
        (t, Outcome.exit 0, none)
      else
        match kubectl_wait env "app=prometheus" "monitoring" timeout with
        | (tw, Except.error e) => (t ++ tw, Outcome.raised e, none)
        | (tw, Except.ok _) =>
          match kubectl_wait env "app=grafana" "monitoring" timeout with
          | (tw2, Except.error e) => (t ++ tw ++ tw2, Outcome.raised e, none)
          | (tw2, Except.ok _) => (t ++ tw ++ tw2, Outcome.exit 0, none)
  else
    ([], Outcome.exit 2, none)

/-- Mirrors the `deploy` command: configure logging from `--verbose`, run the
preflight (whose failure re-raises), then the body; normal completion exits 0. -/
def deploy (env : Env) (stack : String) (dry_run : Bool) (timeout : String)
    (verbose : Bool) : RunRes :=
  let lvl := if verbose then "DEBUG" else "INFO"
  match ensure_kubectl env with
  | (t, Except.error e) => ⟨t, Outcome.raised e, lvl, none⟩
  | (t, Except.ok _) =>
    match deployBody env stack dry_run timeout with
    | (t2, o, m) => ⟨t ++ t2, o, lvl, m⟩

/-- Body of `delete_stack` after the preflight: the unchecked namespace query;
a non-zero exit warns and exits 0; otherwise the stack dispatch deletes the
namespace or exits 2 for an unknown stack. -/
def deleteBody (env : Env) (stack : String) :
    List (List String) × Outcome × Option String :=
  match runCmd env (getNamespacesCmd stack) false with
  | (t, Except.error e) => (t, Outcome.raised e, none)
  | (t, Except.ok rc) =>
    if rc ≠ 0 then
      (t, Outcome.exit 0, some ( "命名空间 \x27" ++ (stack ++ "\x27 不存在，跳过删除。")))
    else if stack = "monitoring" then
      match runCmd env (deleteNamespacesCmd "monitoring") true with
      | (t2, Except.error e) => (t ++ t2, Outcome.raised e, none)
      | (t2, Except.ok _) => (t ++ t2, Outcome.exit 0, none)
    else
      (t, Outcome.exit 2, none)

/-- Mirrors the `delete` command: logging from `--verbose`, preflight, then
the body. -/
def delete_stack (env : Env) (stack : String) (verbose : Bool) : RunRes :=
  let lvl := if verbose then "DEBUG" else "INFO"
  match ensure_kubectl env with
  | (t, Except.error e) => ⟨t, Outcome.raised e, lvl, none⟩
  | (t, Except.ok _) =>
    match deleteBody env stack with
    | (t2, o, m) => ⟨t ++ t2, o, lvl, m⟩

/-- Whether a command line is a `kubectl apply`. -/
def isApplyCmd (c : List String) : Bool := decide (c.take 2 = [ "kubectl", "apply" ])

/-- Whether a command line is a `kubectl wait`. -/
def isWaitCmd (c : List String) : Bool := decide (c.take 2 = [ "kubectl", "wait" ])

/-- Whether a command line is a `kubectl delete`. -/
def isDeleteCmd (c : List String) : Bool := decide (c.take 2 = [ "kubectl", "delete" ])

/-- Whether a command line carries the server-side dry-run flag. -/
def hasDryRunFlag (c : List String) : Bool := decide ( "--dry-run=server" ∈ c)

/-- A mutating backend call: an apply without the dry-run flag, or a delete. -/
def isMutating (c : List String) : Bool :=
  (isApplyCmd c && !hasDryRunFlag c) || isDeleteCmd c

/-- Substring containment on strings. -/
def strContains (s sub : String) : Prop := ∃ a b : String, s = a ++ (sub ++ b)

/-- An environment where every file exists and every backend call exits 0. -/
def envAllOk : Env := ⟨fun _ => true, fun _ => 0⟩

/-- An environment where no manifest file exists. -/
def envNoFile : Env := ⟨fun _ => false, fun _ => 0⟩

/-- An environment where only the namespace-existence query for `s` fails. -/
def envNsMissing (s : String) : Env :=
  ⟨fun _ => true, fun c => if c = getNamespacesCmd s then 1 else 0⟩

/-- An environment where applying the third monitoring manifest
(`prometheus-config.yaml`) fails with exit code 1 and everything else succeeds. -/
def envFailThird : Env :=
  ⟨fun _ => true,
   fun c => if c = applyCmd ( "cli/resource/monitoring/prometheus-config.yaml") false then 1 else 0⟩

/-- An environment where the kubectl client-version preflight check fails. -/
def envPreflightFail : Env :=
  ⟨fun _ => true, fun c => if c = kubectlVersionCmd then 1 else 0⟩

/-- An environment where the namespace-existence query for the monitoring
stack fails with exit code 255 (e.g. the cluster is unreachable) while every
other call succeeds. -/
def envGetError : Env :=
  ⟨fun _ => true, fun c => if c = getNamespacesCmd "monitoring" then 255 else 0⟩

/-! ### Basic lemmas about the embedded operations -/

theorem runCmd_zero (env : Env) (cmd : List String) (check : Bool)
    (h : env.cmdExit cmd = 0) : runCmd env cmd check = ([cmd], Except.ok 0) := by
  simp [runCmd, h]

theorem runCmd_check_fail (env : Env) (cmd : List String)
    (h : env.cmdExit cmd ≠ 0) :
    runCmd env cmd true =
      ([cmd], Except.error (Err.calledProcessError cmd (env.cmdExit cmd))) := by
  simp [runCmd, h]

theorem runCmd_nocheck (env : Env) (cmd : List String) :
    runCmd env cmd false = ([cmd], Except.ok (env.cmdExit cmd)) := by
  simp [runCmd]

theorem ensure_kubectl_ok (env : Env) (hv : env.cmdExit kubectlVersionCmd = 0)
    (hc : env.cmdExit kubectlContextCmd = 0) :
    ensure_kubectl env = ([kubectlVersionCmd, kubectlContextCmd], Except.ok ()) := by
  simp [ensure_kubectl, runCmd, hv, hc]

theorem ensure_kubectl_fail_version (env : Env)
    (hv : env.cmdExit kubectlVersionCmd ≠ 0) :
    ensure_kubectl env = ([kubectlVersionCmd],
      Except.error (Err.calledProcessError kubectlVersionCmd (env.cmdExit kubectlVersionCmd))) := by
  simp [ensure_kubectl, runCmd, hv]

theorem ensure_kubectl_fail_context (env : Env)
    (hv : env.cmdExit kubectlVersionCmd = 0)
    (hc : env.cmdExit kubectlContextCmd ≠ 0) :
    ensure_kubectl env = ([kubectlVersionCmd, kubectlContextCmd],
      Except.error (Err.calledProcessError kubectlContextCmd (env.cmdExit kubectlContextCmd))) := by
  simp [ensure_kubectl, runCmd, hv, hc]

theorem apply_yaml_missing (env : Env) (fp : String) (d : Bool)
    (h : env.fileExists fp = false) :
    apply_yaml env fp d = ([], Except.error (Err.fileNotFound fp)) := by
  simp [apply_yaml, h]

theorem apply_yaml_ok (env : Env) (fp : String) (d : Bool)
    (hex : env.fileExists fp = true) (hrc : env.cmdExit (applyCmd fp d) = 0) :
    apply_yaml env fp d = ([applyCmd fp d], Except.ok ()) := by
  simp [apply_yaml, runCmd, hex, hrc]

theorem apply_yaml_fail (env : Env) (fp : String) (d : Bool)
    (hex : env.fileExists fp = true) (hrc : env.cmdExit (applyCmd fp d) ≠ 0) :
    apply_yaml env fp d = ([applyCmd fp d],
      Except.error (Err.calledProcessError (applyCmd fp d) (env.cmdExit (applyCmd fp d)))) := by
  simp [apply_yaml, runCmd, hex, hrc]

theorem kubectl_wait_ok (env : Env) (label namespc timeout : String)
    (h : env.cmdExit (waitCmd label namespc timeout) = 0) :
    kubectl_wait env label namespc timeout = ([waitCmd label namespc timeout], Except.ok ()) := by
  simp [kubectl_wait, runCmd, h]

theorem kubectl_wait_fail (env : Env) (label namespc timeout : String)
    (h : env.cmdExit (waitCmd label namespc timeout) ≠ 0) :
    kubectl_wait env label namespc timeout = ([waitCmd label namespc timeout],
      Except.error (Err.calledProcessError (waitCmd label namespc timeout)
        (env.cmdExit (waitCmd label namespc timeout)))) := by
  simp [kubectl_wait, runCmd, h]

theorem applyLoop_ok (env : Env) (d : Bool) (files : List String)
    (h : ∀ f ∈ files, env.fileExists f = true ∧ env.cmdExit (applyCmd f d) = 0) :
    applyLoop env d files = (files.map (fun f => applyCmd f d), LoopRes.ok) := by
  induction files with
  | nil => rfl
  | cons f rest ih =>
    obtain ⟨hex, hrc⟩ := h f (List.mem_cons_self f rest)
    have hr := ih (fun g hg => h g (List.mem_cons_of_mem f hg))
    simp [applyLoop, apply_yaml, runCmd, hex, hrc, hr]

theorem applyLoop_fail (env : Env) (d : Bool) (files : List String) (i : Nat)
    (hi : i < files.length)
    (hok : ∀ f ∈ files.take i, env.fileExists f = true ∧ env.cmdExit (applyCmd f d) = 0)
    (hex : env.fileExists (files.get ⟨i, hi⟩) = true)
    (hrc : env.cmdExit (applyCmd (files.get ⟨i, hi⟩) d) ≠ 0) :
    applyLoop env d files =
      ((files.take (i + 1)).map (fun f => applyCmd f d),
        LoopRes.failed (failMsg (files.get ⟨i, hi⟩)
          (Err.calledProcessError (applyCmd (files.get ⟨i, hi⟩) d)
            (env.cmdExit (applyCmd (files.get ⟨i, hi⟩) d))))) := by
  induction files generalizing i with
  | nil => exact absurd hi (Nat.not_lt_zero i)
  | cons f rest ih =>
    cases i with
    | zero =>
      simp only [List.get] at hex hrc
      simp [applyLoop, apply_yaml, runCmd, hex, hrc]
    | succ j =>
      obtain ⟨hex0, hrc0⟩ := hok f (by simp)
      have hr := ih j (Nat.lt_of_succ_lt_succ hi)
        (fun g hg => hok g (by simp [hg])) hex hrc
      simp [applyLoop, apply_yaml, runCmd, hex0, hrc0, hr]

theorem applyCmd_take_two (p : String) (d : Bool) :
    (applyCmd p d).take 2 = [ "kubectl", "apply" ] := rfl

theorem isApplyCmd_applyCmd (p : String) (d : Bool) :
    isApplyCmd (applyCmd p d) = true := rfl

theorem isWaitCmd_applyCmd (p : String) (d : Bool) :
    isWaitCmd (applyCmd p d) = false := rfl

theorem isDeleteCmd_applyCmd (p : String) (d : Bool) :
    isDeleteCmd (applyCmd p d) = false := rfl

theorem hasDryRunFlag_applyCmd_true (p : String) :
    hasDryRunFlag (applyCmd p true) = true := by
  simp [hasDryRunFlag, applyCmd]

theorem monitoringPaths_nodup : monitoringPaths.Nodup := by decide

theorem applyCmd_inj {p q : String} {d : Bool}
    (h : applyCmd p d = applyCmd q d) : p = q := by
  cases d <;> simpa [applyCmd] using h

/-! ### Scenario lemmas: full runs of `deploy` and `delete_stack` -/

theorem deploy_unknown (env : Env) (s : String) (d : Bool) (t : String) (v : Bool)
    (hv : env.cmdExit kubectlVersionCmd = 0)
    (hc : env.cmdExit kubectlContextCmd = 0)
    (hs : s ≠ "monitoring") :
    deploy env s d t v = ⟨[kubectlVersionCmd, kubectlContextCmd], Outcome.exit 2,
      if v then "DEBUG" else "INFO", none⟩ := by
  simp [deploy, ensure_kubectl_ok env hv hc, deployBody, hs]

theorem deploy_monitoring_dry (env : Env) (t : String) (v : Bool)
    (hv : env.cmdExit kubectlVersionCmd = 0)
    (hc : env.cmdExit kubectlContextCmd = 0)
    (happ : ∀ f ∈ monitoringPaths,
      env.fileExists f = true ∧ env.cmdExit (applyCmd f true) = 0) :
    deploy env "monitoring" true t v =
      ⟨[kubectlVersionCmd, kubectlContextCmd] ++
          monitoringPaths.map (fun f => applyCmd f true),
        Outcome.exit 0, if v then "DEBUG" else "INFO", none⟩ := by
  simp [deploy, ensure_kubectl_ok env hv hc, deployBody,
    applyLoop_ok env true monitoringPaths happ]

theorem deploy_monitoring_wet_ok (env : Env) (t : String) (v : Bool)
    (hv : env.cmdExit kubectlVersionCmd = 0)
    (hc : env.cmdExit kubectlContextCmd = 0)
    (happ : ∀ f ∈ monitoringPaths,
      env.fileExists f = true ∧ env.cmdExit (applyCmd f false) = 0)
    (hw1 : env.cmdExit (waitCmd "app=prometheus" "monitoring" t) = 0)
    (hw2 : env.cmdExit (waitCmd "app=grafana" "monitoring" t) = 0) :
    deploy env "monitoring" false t v =
      ⟨[kubectlVersionCmd, kubectlContextCmd] ++
          monitoringPaths.map (fun f => applyCmd f false) ++
          [waitCmd "app=prometheus" "monitoring" t,
           waitCmd "app=grafana" "monitoring" t],
        Outcome.exit 0, if v then "DEBUG" else "INFO", none⟩ := by
  simp [deploy, ensure_kubectl_ok env hv hc, deployBody,
    applyLoop_ok env false monitoringPaths happ,
    kubectl_wait_ok env _ _ t hw1, kubectl_wait_ok env _ _ t hw2]

theorem deploy_monitoring_applyfail (env : Env) (d : Bool) (t : String) (v : Bool)
    (i : Nat) (hi : i < monitoringPaths.length)
    (hv : env.cmdExit kubectlVersionCmd = 0)
    (hc : env.cmdExit kubectlContextCmd = 0)
    (hok : ∀ f ∈ monitoringPaths.take i,
      env.fileExists f = true ∧ env.cmdExit (applyCmd f d) = 0)
    (hex : env.fileExists (monitoringPaths.get ⟨i, hi⟩) = true)
    (hrc : env.cmdExit (applyCmd (monitoringPaths.get ⟨i, hi⟩) d) ≠ 0) :
    deploy env "monitoring" d t v =
      ⟨[kubectlVersionCmd, kubectlContextCmd] ++
          (monitoringPaths.take (i + 1)).map (fun f => applyCmd f d),
        Outcome.exit 1, if v then "DEBUG" else "INFO",
        some (failMsg (monitoringPaths.get ⟨i, hi⟩)
          (Err.calledProcessError (applyCmd (monitoringPaths.get ⟨i, hi⟩) d)
            (env.cmdExit (applyCmd (monitoringPaths.get ⟨i, hi⟩) d))))⟩ := by
  simp [deploy, ensure_kubectl_ok env hv hc, deployBody,
    applyLoop_fail env d monitoringPaths i hi hok hex hrc]

theorem delete_stack_ns_missing (env : Env) (s : String) (vb : Bool)
    (hv : env.cmdExit kubectlVersionCmd = 0)
    (hc : env.cmdExit kubectlContextCmd = 0)
    (hns : env.cmdExit (getNamespacesCmd s) ≠ 0) :
    delete_stack env s vb =
      ⟨[kubectlVersionCmd, kubectlContextCmd, getNamespacesCmd s],
        Outcome.exit 0, if vb then "DEBUG" else "INFO",
        some ( "命名空间 \x27" ++ (s ++ "\x27 不存在，跳过删除。"))⟩ := by
  simp [delete_stack, ensure_kubectl_ok env hv hc, deleteBody, runCmd, hns]

theorem delete_stack_unknown (env : Env) (s : String) (vb : Bool)
    (hv : env.cmdExit kubectlVersionCmd = 0)
    (hc : env.cmdExit kubectlContextCmd = 0)
    (hns : env.cmdExit (getNamespacesCmd s) = 0)
    (hs : s ≠ "monitoring") :
    delete_stack env s vb =
      ⟨[kubectlVersionCmd, kubectlContextCmd, getNamespacesCmd s],
        Outcome.exit 2, if vb then "DEBUG" else "INFO", none⟩ := by
  simp [delete_stack, ensure_kubectl_ok env hv hc, deleteBody, runCmd, hns, hs]

theorem strContains_failMsg_baseName (fp : String) (e : Err) :
    strContains (failMsg fp e) (baseName fp) :=
  ⟨ "失败: ", " -> " ++ errStr e, rfl⟩

theorem strContains_failMsg_errStr (fp : String) (e : Err) :
    strContains (failMsg fp e) (errStr e) :=
  ⟨ "失败: " ++ baseName fp ++ " -> ", "", by
    simp [failMsg, String.append_assoc, String.append_empty]⟩

theorem strContains_errStr_status (cmd : List String) (rc : Nat) :
    strContains (errStr (Err.calledProcessError cmd rc))
      ( "returned non-zero exit status " ++ toString rc) :=
  ⟨ "Command \x27" ++ pyListRepr cmd ++ "\x27 ", ".", by
    simp [errStr, String.append_assoc]⟩

theorem kubectl_wait_trace (env : Env) (label namespc timeout : String) :
    (kubectl_wait env label namespc timeout).1 =
      [[ "kubectl", "wait", "--for=condition=ready", "pod", "-l", label, "-n", namespc,
         "--timeout=" ++ timeout ]] := by
  by_cases h : env.cmdExit (waitCmd label namespc timeout) = 0
  · simp [kubectl_wait_ok env label namespc timeout h, waitCmd]
  · simp [kubectl_wait_fail env label namespc timeout h, waitCmd]

/-! ### The claims -/

/-- C1 (counterexample): the claim quantifies over every stack registered in
`SUPPORT_STACKS`, including `"elk"`; but in an environment where every file
exists and every backend call succeeds, a dry-run `deploy` of `"elk"` (whose
manifest list is empty, so every listed manifest is vacuously well-formed)
exits with the unknown-stack code 2, not 0. -/
theorem C1_counterexample :
    ( ( "elk", elkStack) ∈ SUPPORT_STACKS ∧ elkStack.files = []) ∧
    (deploy envAllOk "elk" true deployTimeoutDefault false).outcome = Outcome.exit 2 ∧
    (deploy envAllOk "elk" true deployTimeoutDefault false).outcome ≠ Outcome.exit 0 := by
  exact ⟨⟨by decide, rfl⟩, by decide, by decide⟩

/-- C1 (amended): for the `"monitoring"` stack, when the preflight succeeds
and every listed manifest is well-formed, a dry-run `deploy` exits 0, every
`kubectl apply` it issues carries the `--dry-run=server` flag, and it issues
no `kubectl wait` and no `kubectl delete`; for the registered stacks `"elk"`
and `"hadoop"`, `deploy` exits with the unknown-stack code 2. -/
theorem C1_dry_run_never_mutates (env : Env) (t : String) (v : Bool)
    (hv : env.cmdExit kubectlVersionCmd = 0)
    (hc : env.cmdExit kubectlContextCmd = 0)
    (happ : ∀ f ∈ monitoringPaths,
      env.fileExists f = true ∧ env.cmdExit (applyCmd f true) = 0) :
    ((deploy env "monitoring" true t v).outcome = Outcome.exit 0 ∧
      (∀ c ∈ (deploy env "monitoring" true t v).trace,
        isApplyCmd c = true → hasDryRunFlag c = true) ∧
      (∀ c ∈ (deploy env "monitoring" true t v).trace,
        isWaitCmd c = false ∧ isDeleteCmd c = false)) ∧
    (deploy env "elk" true t v).outcome = Outcome.exit 2 ∧
    (deploy env "hadoop" true t v).outcome = Outcome.exit 2 := by
  have hdep := deploy_monitoring_dry env t v hv hc happ
  refine ⟨⟨by rw [hdep], ?_, ?_⟩,
    by rw [deploy_unknown env _ true t v hv hc (by decide)],
    by rw [deploy_unknown env _ true t v hv hc (by decide)]⟩
  · intro c hcm
    rw [hdep] at hcm
    rcases List.mem_append.mp hcm with hA | hB
    · simp only [List.mem_cons, List.not_mem_nil, or_false] at hA
      rcases hA with rfl | rfl
      · intro hbad; exact absurd hbad (by decide)
      · intro hbad; exact absurd hbad (by decide)
    · obtain ⟨g, -, rfl⟩ := List.mem_map.mp hB
      intro _
      exact hasDryRunFlag_applyCmd_true g
  · intro c hcm
    rw [hdep] at hcm
    rcases List.mem_append.mp hcm with hA | hB
    · simp only [List.mem_cons, List.not_mem_nil, or_false] at hA
      rcases hA with rfl | rfl
      · exact ⟨rfl, rfl⟩
      · exact ⟨rfl, rfl⟩
    · obtain ⟨g, -, rfl⟩ := List.mem_map.mp hB
      exact ⟨isWaitCmd_applyCmd g true, isDeleteCmd_applyCmd g true⟩

/-- C1 (witness): the amended theorem instantiated in the all-succeeding
environment. -/
theorem C1_witness :
    (deploy envAllOk "monitoring" true "300s" false).outcome = Outcome.exit 0 ∧
    (deploy envAllOk "elk" true "300s" false).outcome = Outcome.exit 2 := by
  have h := C1_dry_run_never_mutates envAllOk "300s" false rfl rfl (by decide)
  exact ⟨h.1.1, h.2.1⟩

/-- C2 (counterexample): for the unknown stack code `"foo"`, in an environment
where the namespace-existence query for `"foo"` fails, `delete` exits 0 (the
success-no-op path), not with the unknown-stack code 2 as the claim states. -/
theorem C2_counterexample :
    ( "foo" : String) ∉ SUPPORT_STACKS.map Prod.fst ∧
    (delete_stack (envNsMissing "foo") "foo" false).outcome = Outcome.exit 0 ∧
    (delete_stack (envNsMissing "foo") "foo" false).outcome ≠ Outcome.exit 2 := by
  exact ⟨by decide, by decide, by decide⟩

/-- C2 (amended): for every stack code not registered in `SUPPORT_STACKS`,
`deploy` (after a successful preflight) exits with the unknown-stack code 2
and performs zero backend calls beyond the two preflight checks; `delete`
exits with code 2 without issuing a namespace deletion — and with zero
backend calls beyond preflight and the namespace-existence check — when that
check reports the namespace present, but exits 0 as a success-no-op when the
check reports it absent. -/
theorem C2_unknown_stack (env : Env) (s : String) (d : Bool) (t : String)
    (v vb : Bool)
    (hunk : s ∉ SUPPORT_STACKS.map Prod.fst)
    (hv : env.cmdExit kubectlVersionCmd = 0)
    (hc : env.cmdExit kubectlContextCmd = 0) :
    ((deploy env s d t v).outcome = Outcome.exit 2 ∧
      (deploy env s d t v).trace = [kubectlVersionCmd, kubectlContextCmd]) ∧
    (env.cmdExit (getNamespacesCmd s) = 0 →
      (delete_stack env s vb).outcome = Outcome.exit 2 ∧
      (delete_stack env s vb).trace =
        [kubectlVersionCmd, kubectlContextCmd, getNamespacesCmd s] ∧
      (∀ namespc, deleteNamespacesCmd namespc ∉ (delete_stack env s vb).trace)) ∧
    (env.cmdExit (getNamespacesCmd s) ≠ 0 →
      (delete_stack env s vb).outcome = Outcome.exit 0) := by
  have hs : s ≠ "monitoring" := by
    intro h
    exact hunk (h ▸ (by decide : ( "monitoring" : String) ∈ SUPPORT_STACKS.map Prod.fst))
  refine ⟨by rw [deploy_unknown env s d t v hv hc hs]; exact ⟨rfl, rfl⟩, ?_, ?_⟩
  · intro hns
    rw [delete_stack_unknown env s vb hv hc hns hs]
    refine ⟨rfl, rfl, ?_⟩
    intro namespc hmem
    simp [deleteNamespacesCmd, kubectlVersionCmd, kubectlContextCmd,
      getNamespacesCmd] at hmem
  · intro hns
    rw [delete_stack_ns_missing env s vb hv hc hns]

/-- C2 (witness): the amended theorem instantiated at the unknown stack
`"foo"` in the all-succeeding environment (namespace present branch). -/
theorem C2_witness :
    (deploy envAllOk "foo" false "300s" false).outcome = Outcome.exit 2 ∧
    (delete_stack envAllOk "foo" false).outcome = Outcome.exit 2 := by
  have h := C2_unknown_stack envAllOk "foo" false "300s" false false
    (by decide) rfl rfl
  exact ⟨h.1.1, (h.2.1 rfl).1⟩

/-- C3: manifest application is strictly ordered by the registry list.  If the
first `i` applies succeed and applying manifest `i` fails, the trace is
exactly the preflight followed by the applies of manifests `0..i` (so no
later manifest is ever applied), nothing is deleted (no rollback), the
surfaced message carries manifest `i`'s filename and the underlying cause,
and the process exits with code 1, distinct from the unknown-stack code 2. -/
theorem C3_ordered_apply_abort (env : Env) (d : Bool) (t : String) (v : Bool)
    (i : Nat) (hi : i < monitoringPaths.length)
    (hv : env.cmdExit kubectlVersionCmd = 0)
    (hc : env.cmdExit kubectlContextCmd = 0)
    (hok : ∀ f ∈ monitoringPaths.take i,
      env.fileExists f = true ∧ env.cmdExit (applyCmd f d) = 0)
    (hex : env.fileExists (monitoringPaths.get ⟨i, hi⟩) = true)
    (hrc : env.cmdExit (applyCmd (monitoringPaths.get ⟨i, hi⟩) d) ≠ 0) :
    (deploy env "monitoring" d t v).trace =
        [kubectlVersionCmd, kubectlContextCmd] ++
          (monitoringPaths.take (i + 1)).map (fun f => applyCmd f d) ∧
    (deploy env "monitoring" d t v).outcome = Outcome.exit 1 ∧
    (∀ f ∈ monitoringPaths.drop (i + 1),
      applyCmd f d ∉ (deploy env "monitoring" d t v).trace) ∧
    (∀ c ∈ (deploy env "monitoring" d t v).trace, isDeleteCmd c = false) ∧
    (deploy env "monitoring" d t v).surfaced =
      some (failMsg (monitoringPaths.get ⟨i, hi⟩)
        (Err.calledProcessError (applyCmd (monitoringPaths.get ⟨i, hi⟩) d)
          (env.cmdExit (applyCmd (monitoringPaths.get ⟨i, hi⟩) d)))) ∧
    strContains (failMsg (monitoringPaths.get ⟨i, hi⟩)
        (Err.calledProcessError (applyCmd (monitoringPaths.get ⟨i, hi⟩) d)
          (env.cmdExit (applyCmd (monitoringPaths.get ⟨i, hi⟩) d))))
      (baseName (monitoringPaths.get ⟨i, hi⟩)) ∧
    strContains (failMsg (monitoringPaths.get ⟨i, hi⟩)
        (Err.calledProcessError (applyCmd (monitoringPaths.get ⟨i, hi⟩) d)
          (env.cmdExit (applyCmd (monitoringPaths.get ⟨i, hi⟩) d))))
      (errStr (Err.calledProcessError (applyCmd (monitoringPaths.get ⟨i, hi⟩) d)
        (env.cmdExit (applyCmd (monitoringPaths.get ⟨i, hi⟩) d)))) ∧
    Outcome.exit 1 ≠ Outcome.exit 2 := by
  have hdep := deploy_monitoring_applyfail env d t v i hi hv hc hok hex hrc
  refine ⟨by rw [hdep], by rw [hdep], ?_, ?_, by rw [hdep],
    strContains_failMsg_baseName _ _, strContains_failMsg_errStr _ _, by decide⟩
  · intro f hf hmem
    rw [hdep] at hmem
    rcases List.mem_append.mp hmem with hA | hB
    · simp only [List.mem_cons, List.not_mem_nil, or_false] at hA
      rcases hA with hA | hA <;>
        · cases d <;> simp [applyCmd, kubectlVersionCmd, kubectlContextCmd] at hA
    · obtain ⟨g, hg, hgeq⟩ := List.mem_map.mp hB
      have hgf : g = f := applyCmd_inj hgeq
      subst hgf
      have hnd := monitoringPaths_nodup
      rw [← List.take_append_drop (i + 1) monitoringPaths] at hnd
      obtain ⟨-, -, hdisj⟩ := List.nodup_append.mp hnd
      exact hdisj hg hf
  · intro c hcm
    rw [hdep] at hcm
    rcases List.mem_append.mp hcm with hA | hB
    · simp only [List.mem_cons, List.not_mem_nil, or_false] at hA
      rcases hA with rfl | rfl
      · rfl
      · rfl
    · obtain ⟨g, -, rfl⟩ := List.mem_map.mp hB
      exact isDeleteCmd_applyCmd g d

/-- C3 (witness): the theorem instantiated in the environment where applying
the third monitoring manifest fails with exit code 1. -/
theorem C3_witness :
    (deploy envFailThird "monitoring" false "300s" false).outcome = Outcome.exit 1 ∧
    (deploy envFailThird "monitoring" false "300s" false).trace =
      [kubectlVersionCmd, kubectlContextCmd] ++
        (monitoringPaths.take 3).map (fun f => applyCmd f false) := by
  have h := C3_ordered_apply_abort envFailThird false "300s" false 2
    (by decide) (by decide) (by decide) (by decide) (by decide) (by decide)
  exact ⟨h.2.1, h.1⟩

/-- C4: for every resource path and dry-run flag, if the path does not exist
locally then `apply_yaml` fails with `FileNotFoundError` and its trace is
empty — no `kubectl apply` is issued for a missing file. -/
theorem C4_missing_manifest (env : Env) (fp : String) (d : Bool)
    (h : env.fileExists fp = false) :
    apply_yaml env fp d = ([], Except.error (Err.fileNotFound fp)) :=
  apply_yaml_missing env fp d h

/-- C4 (witness): the theorem instantiated in the environment where no file
exists. -/
theorem C4_witness :
    apply_yaml envNoFile "cli/resource/monitoring/namespace.yaml" true =
      ([], Except.error (Err.fileNotFound "cli/resource/monitoring/namespace.yaml")) :=
  C4_missing_manifest envNoFile "cli/resource/monitoring/namespace.yaml" true rfl

/-- C5: the preflight trace consists only of the two read-only checks (client
version and current context, neither of them mutating), every invocation of
`deploy` or `delete_stack` starts with exactly that trace, and if the
preflight fails the invocation terminates with the raised error before any
further backend call — no manifest applied, no namespace deleted. -/
theorem C5_preflight_runs_first (env : Env) (s : String) (d : Bool) (t : String)
    (v vb : Bool) :
    (∀ c ∈ (ensure_kubectl env).1,
      (c = kubectlVersionCmd ∨ c = kubectlContextCmd) ∧ isMutating c = false) ∧
    (∃ rest, (deploy env s d t v).trace = (ensure_kubectl env).1 ++ rest) ∧
    (∃ rest, (delete_stack env s vb).trace = (ensure_kubectl env).1 ++ rest) ∧
    (∀ e, (ensure_kubectl env).2 = Except.error e →
      (deploy env s d t v).trace = (ensure_kubectl env).1 ∧
      (deploy env s d t v).outcome = Outcome.raised e ∧
      (delete_stack env s vb).trace = (ensure_kubectl env).1 ∧
      (delete_stack env s vb).outcome = Outcome.raised e) := by
  by_cases hv : env.cmdExit kubectlVersionCmd = 0
  · by_cases hc : env.cmdExit kubectlContextCmd = 0
    · have hpre := ensure_kubectl_ok env hv hc
      rcases hb : deployBody env s d t with ⟨t2, o2, m2⟩
      rcases hd : deleteBody env s with ⟨t3, o3, m3⟩
      refine ⟨?_, ⟨t2, ?_⟩, ⟨t3, ?_⟩, ?_⟩
      · intro c hcm
        rw [hpre] at hcm
        simp only [List.mem_cons, List.not_mem_nil, or_false] at hcm
        rcases hcm with rfl | rfl
        · exact ⟨Or.inl rfl, rfl⟩
        · exact ⟨Or.inr rfl, rfl⟩
      · simp [deploy, hpre, hb]
      · simp [delete_stack, hpre, hd]
      · intro e he
        rw [hpre] at he
        simp at he
    · have hpre := ensure_kubectl_fail_context env hv hc
      refine ⟨?_, ⟨[], ?_⟩, ⟨[], ?_⟩, ?_⟩
      · intro c hcm
        rw [hpre] at hcm
        simp only [List.mem_cons, List.not_mem_nil, or_false] at hcm
        rcases hcm with rfl | rfl
        · exact ⟨Or.inl rfl, rfl⟩
        · exact ⟨Or.inr rfl, rfl⟩
      · simp [deploy, hpre]
      · simp [delete_stack, hpre]
      · intro e he
        rw [hpre] at he
        simp only [Except.error.injEq] at he
        subst he
        exact ⟨by simp [deploy, hpre], by simp [deploy, hpre],
          by simp [delete_stack, hpre], by simp [delete_stack, hpre]⟩
  · have hpre := ensure_kubectl_fail_version env hv
    refine ⟨?_, ⟨[], ?_⟩, ⟨[], ?_⟩, ?_⟩
    · intro c hcm
      rw [hpre] at hcm
      simp only [List.mem_cons, List.not_mem_nil, or_false] at hcm
      rcases hcm with rfl
      · exact ⟨Or.inl rfl, rfl⟩
    · simp [deploy, hpre]
    · simp [delete_stack, hpre]
    · intro e he
      rw [hpre] at he
      simp only [Except.error.injEq] at he
      subst he
      exact ⟨by simp [deploy, hpre], by simp [deploy, hpre],
        by simp [delete_stack, hpre], by simp [delete_stack, hpre]⟩

/-- C5 (witness): the theorem instantiated in the environment where the
client-version preflight check fails: both commands terminate with the raised
preflight error and a trace containing only that check. -/
theorem C5_witness :
    (deploy envPreflightFail "monitoring" false "300s" false).trace =
      (ensure_kubectl envPreflightFail).1 ∧
    (deploy envPreflightFail "monitoring" false "300s" false).outcome =
      Outcome.raised (Err.calledProcessError kubectlVersionCmd 1) ∧
    (delete_stack envPreflightFail "monitoring" false).trace =
      (ensure_kubectl envPreflightFail).1 ∧
    (delete_stack envPreflightFail "monitoring" false).outcome =
      Outcome.raised (Err.calledProcessError kubectlVersionCmd 1) := by
  exact (C5_preflight_runs_first envPreflightFail "monitoring" false "300s"
    false false).2.2.2 (Err.calledProcessError kubectlVersionCmd 1) rfl

/-- C6: in a non-dry-run deploy of the monitoring stack, after all manifests
are applied the readiness waits run in declared order — first the
`app=prometheus` group, then the `app=grafana` group — the timeout string is
passed verbatim into the backend wait command, and the default of the
`--timeout` option is 300 seconds. -/
theorem C6_ordered_waits (env : Env) (t : String) (v : Bool)
    (hv : env.cmdExit kubectlVersionCmd = 0)
    (hc : env.cmdExit kubectlContextCmd = 0)
    (happ : ∀ f ∈ monitoringPaths,
      env.fileExists f = true ∧ env.cmdExit (applyCmd f false) = 0)
    (hw1 : env.cmdExit (waitCmd "app=prometheus" "monitoring" t) = 0)
    (hw2 : env.cmdExit (waitCmd "app=grafana" "monitoring" t) = 0) :
    (deploy env "monitoring" false t v).trace =
      [kubectlVersionCmd, kubectlContextCmd] ++
        monitoringPaths.map (fun f => applyCmd f false) ++
        [waitCmd "app=prometheus" "monitoring" t,
         waitCmd "app=grafana" "monitoring" t] ∧
    (deploy env "monitoring" false t v).outcome = Outcome.exit 0 ∧
    (∀ label namespc timeout, (kubectl_wait env label namespc timeout).1 =
      [[ "kubectl", "wait", "--for=condition=ready", "pod", "-l", label,
         "-n", namespc, "--timeout=" ++ timeout ]]) ∧
    deployTimeoutDefault = "300s" := by
  have hdep := deploy_monitoring_wet_ok env t v hv hc happ hw1 hw2
  exact ⟨by rw [hdep], by rw [hdep],
    fun label namespc timeout => kubectl_wait_trace env label namespc timeout, rfl⟩

/-- C6 (witness): the theorem instantiated in the all-succeeding environment
with the default timeout. -/
theorem C6_witness :
    (deploy envAllOk "monitoring" false "300s" false).trace =
      [kubectlVersionCmd, kubectlContextCmd] ++
        monitoringPaths.map (fun f => applyCmd f false) ++
        [waitCmd "app=prometheus" "monitoring" "300s",
         waitCmd "app=grafana" "monitoring" "300s"] ∧
    (deploy envAllOk "monitoring" false "300s" false).outcome = Outcome.exit 0 := by
  have h := C6_ordered_waits envAllOk "300s" false rfl rfl (by decide) rfl rfl
  exact ⟨h.1, h.2.1⟩

/-- C7: for every stack code, if the namespace-existence check reports the
namespace absent (non-zero exit), `delete_stack` terminates with exit code 0,
emits the skip warning, and issues no namespace-deletion backend call — its
trace is exactly the preflight plus the existence query. -/
theorem C7_absent_namespace_noop (env : Env) (s : String) (vb : Bool)
    (hv : env.cmdExit kubectlVersionCmd = 0)
    (hc : env.cmdExit kubectlContextCmd = 0)
    (hns : env.cmdExit (getNamespacesCmd s) ≠ 0) :
    (delete_stack env s vb).outcome = Outcome.exit 0 ∧
    (delete_stack env s vb).trace =
      [kubectlVersionCmd, kubectlContextCmd, getNamespacesCmd s] ∧
    (∀ namespc, deleteNamespacesCmd namespc ∉ (delete_stack env s vb).trace) ∧
    (delete_stack env s vb).surfaced =
      some ( "命名空间 \x27" ++ (s ++ "\x27 不存在，跳过删除。")) := by
  have hdel := delete_stack_ns_missing env s vb hv hc hns
  refine ⟨by rw [hdel], by rw [hdel], ?_, by rw [hdel]⟩
  intro namespc hmem
  rw [hdel] at hmem
  simp [deleteNamespacesCmd, kubectlVersionCmd, kubectlContextCmd,
    getNamespacesCmd] at hmem

/-- C7 (witness): the theorem instantiated for the monitoring stack in the
environment where its namespace-existence query fails. -/
theorem C7_witness :
    (delete_stack (envNsMissing "monitoring") "monitoring" false).outcome =
      Outcome.exit 0 ∧
    (delete_stack (envNsMissing "monitoring") "monitoring" false).trace =
      [kubectlVersionCmd, kubectlContextCmd, getNamespacesCmd "monitoring"] := by
  have h := C7_absent_namespace_noop (envNsMissing "monitoring") "monitoring"
    false rfl rfl (by decide)
  exact ⟨h.1, h.2.1⟩

/-- C8: `--verbose` changes only the configured logging level, never behavior:
for every environment, stack code and option combination, `deploy` and
`delete_stack` produce identical backend-command traces, identical outcomes
and identical surfaced messages with the flag set and unset, while the
logging level alone differs (DEBUG versus INFO). -/
theorem C8_verbose_immaterial (env : Env) (s : String) (d : Bool) (t : String) :
    ((deploy env s d t true).trace = (deploy env s d t false).trace ∧
      (deploy env s d t true).outcome = (deploy env s d t false).outcome ∧
      (deploy env s d t true).surfaced = (deploy env s d t false).surfaced) ∧
    ((delete_stack env s true).trace = (delete_stack env s false).trace ∧
      (delete_stack env s true).outcome = (delete_stack env s false).outcome ∧
      (delete_stack env s true).surfaced = (delete_stack env s false).surfaced) ∧
    ((deploy env s d t true).logLevel = "DEBUG" ∧
      (deploy env s d t false).logLevel = "INFO" ∧
      (delete_stack env s true).logLevel = "DEBUG" ∧
      (delete_stack env s false).logLevel = "INFO") := by
  rcases hpre : ensure_kubectl env with ⟨tp, rp⟩
  rcases hb : deployBody env s d t with ⟨t2, o2, m2⟩
  rcases hd : deleteBody env s with ⟨t3, o3, m3⟩
  rcases rp with e | u
  · simp [deploy, delete_stack, hpre]
  · simp [deploy, delete_stack, hpre, hb, hd]

/-- C8 (witness): the theorem instantiated in the all-succeeding environment. -/
theorem C8_witness :
    (deploy envAllOk "monitoring" false "300s" true).trace =
      (deploy envAllOk "monitoring" false "300s" false).trace ∧
    (delete_stack envAllOk "monitoring" true).outcome =
      (delete_stack envAllOk "monitoring" false).outcome := by
  have h := C8_verbose_immaterial envAllOk "monitoring" false "300s"
  exact ⟨h.1.1, h.2.1.2.1⟩

/-- C9: whenever the backend's apply operation exits non-zero (on an existing
file), `apply_yaml` fails with a `CalledProcessError` wrapping that command
and exit code, and the message `deploy` surfaces for it contains both the
resource's file name and the backend failure summary (including the
non-zero exit status). -/
theorem C9_apply_error_message (env : Env) (fp : String) (d : Bool)
    (hex : env.fileExists fp = true)
    (hrc : env.cmdExit (applyCmd fp d) ≠ 0) :
    apply_yaml env fp d = ([applyCmd fp d],
      Except.error (Err.calledProcessError (applyCmd fp d)
        (env.cmdExit (applyCmd fp d)))) ∧
    strContains
      (failMsg fp (Err.calledProcessError (applyCmd fp d)
        (env.cmdExit (applyCmd fp d))))
      (baseName fp) ∧
    strContains
      (failMsg fp (Err.calledProcessError (applyCmd fp d)
        (env.cmdExit (applyCmd fp d))))
      (errStr (Err.calledProcessError (applyCmd fp d)
        (env.cmdExit (applyCmd fp d)))) ∧
    strContains
      (errStr (Err.calledProcessError (applyCmd fp d)
        (env.cmdExit (applyCmd fp d))))
      ( "returned non-zero exit status " ++ toString (env.cmdExit (applyCmd fp d))) :=
  ⟨apply_yaml_fail env fp d hex hrc,
    strContains_failMsg_baseName fp _,
    strContains_failMsg_errStr fp _,
    strContains_errStr_status (applyCmd fp d) (env.cmdExit (applyCmd fp d))⟩

/-- C9 (witness): the theorem instantiated in the environment where applying
the third monitoring manifest fails. -/
theorem C9_witness :
    apply_yaml envFailThird "cli/resource/monitoring/prometheus-config.yaml" false =
      ([applyCmd "cli/resource/monitoring/prometheus-config.yaml" false],
        Except.error (Err.calledProcessError
          (applyCmd "cli/resource/monitoring/prometheus-config.yaml" false)
          (envFailThird.cmdExit
            (applyCmd "cli/resource/monitoring/prometheus-config.yaml" false)))) ∧
    strContains
      (failMsg "cli/resource/monitoring/prometheus-config.yaml"
        (Err.calledProcessError
          (applyCmd "cli/resource/monitoring/prometheus-config.yaml" false)
          (envFailThird.cmdExit
            (applyCmd "cli/resource/monitoring/prometheus-config.yaml" false))))
      (baseName "cli/resource/monitoring/prometheus-config.yaml") := by
  have h := C9_apply_error_message envFailThird
    "cli/resource/monitoring/prometheus-config.yaml" false rfl (by decide)
  exact ⟨h.1, h.2.1⟩

/-- C10 (implicit): `delete_stack` treats every non-zero exit of the
namespace-existence query — whatever its code, e.g. a connectivity failure —
as namespace-absent: it exits 0 as a success-no-op, never issues a
namespace-deletion call, and still emits the skip warning. -/
theorem C10_any_check_failure_noop (env : Env) (s : String) (vb : Bool) (rc : Nat)
    (hv : env.cmdExit kubectlVersionCmd = 0)
    (hc : env.cmdExit kubectlContextCmd = 0)
    (hrc : env.cmdExit (getNamespacesCmd s) = rc)
    (hne : rc ≠ 0) :
    (delete_stack env s vb).outcome = Outcome.exit 0 ∧
    (∀ namespc, deleteNamespacesCmd namespc ∉ (delete_stack env s vb).trace) ∧
    (delete_stack env s vb).trace =
      [kubectlVersionCmd, kubectlContextCmd, getNamespacesCmd s] ∧
    (delete_stack env s vb).surfaced =
      some ( "命名空间 \x27" ++ (s ++ "\x27 不存在，跳过删除。")) := by
  have hns : env.cmdExit (getNamespacesCmd s) ≠ 0 := by rw [hrc]; exact hne
  have hdel := delete_stack_ns_missing env s vb hv hc hns
  refine ⟨by rw [hdel], ?_, by rw [hdel], by rw [hdel]⟩
  intro namespc hmem
  rw [hdel] at hmem
  simp [deleteNamespacesCmd, kubectlVersionCmd, kubectlContextCmd,
    getNamespacesCmd] at hmem

/-- C10 (witness): the theorem instantiated for the known stack
`"monitoring"` in the environment where the namespace query fails with exit
code 255 (a cluster-connectivity-style failure): `delete` still exits 0
without attempting deletion. -/
theorem C10_witness :
    (delete_stack envGetError "monitoring" false).outcome = Outcome.exit 0 ∧
    deleteNamespacesCmd "monitoring" ∉ (delete_stack envGetError "monitoring" false).trace := by
  have h := C10_any_check_failure_noop envGetError "monitoring" false 255
    rfl rfl rfl (by decide)
  exact ⟨h.1, h.2.1 "monitoring"⟩

end CliMain
